import Mathlib

/-!
Shallow embedding of the `SmartTrafficManager` core of
`Smart-Traffic-Management-Predictive-Analysis` (src/TrafficManagement.py),
together with theorems checking the specification's claims against it.

Numbers are modelled exactly over ℚ. numpy behaviour is embedded faithfully:
row assignment into the history matrix succeeds when the assigned vector has
the row's length, broadcasts when it has length 1, and raises a ValueError
otherwise; the row shift on line 17 of the source executes before the failing
assignment on line 18, so a failing update still leaves the shifted buffer
behind. `np.linalg.lstsq` on the fixed design matrix with rows `[t, 1]`
(`t = 0 .. H-1`) is embedded by its exact closed-form least-squares solution;
the theorem `predict_is_ols_fit` proves that this solution really minimises
the residual sum of squares, which is what `lstsq` computes for this
full-column-rank design whenever `H ≥ 2`.
-/

/-- Python/numpy runtime errors that the source code can raise. -/
inductive PyErr where
  | valueError
  | indexError
  | zeroDivisionError
deriving DecidableEq, Repr

/-- The state of a `SmartTrafficManager` instance: the three configuration
fields set in `__init__` (lines 10-12) and the two numpy arrays
`vehicle_counts` (H-by-L matrix, line 13) and `signal_timings` (length-L
vector, line 14). -/
structure SmartTrafficManager where
  num_lanes : ℕ
  history_length : ℕ
  cycle_length : ℚ
  vehicle_counts : List (List ℚ)
  signal_timings : List ℚ
deriving DecidableEq, Repr

/-- `SmartTrafficManager.__init__` (lines 9-14), with the lane and history
arguments as integers so that negative configurations can be expressed.
`np.zeros((history_length, num_lanes))` on line 13 raises ValueError when
either dimension is negative; `cycle_length / num_lanes` on line 14 raises
ZeroDivisionError when `num_lanes = 0`. No other validation exists. -/
def initManager (num_lanes history_length : ℤ) (cycle_length : ℚ) :
    Except PyErr SmartTrafficManager :=
  if history_length < 0 ∨ num_lanes < 0 then .error .valueError
  else if num_lanes = 0 then .error .zeroDivisionError
  else .ok
    { num_lanes := num_lanes.toNat
      history_length := history_length.toNat
      cycle_length := cycle_length
      vehicle_counts :=
        List.replicate history_length.toNat (List.replicate num_lanes.toNat 0)
      signal_timings :=
        List.replicate num_lanes.toNat (cycle_length / (num_lanes.toNat : ℚ)) }

/-- Line 17, `self.vehicle_counts[:-1] = self.vehicle_counts[1:]`: rows
`0 .. H-2` receive the old rows `1 .. H-1`; the last row keeps its old value,
so the matrix becomes `tail ++ [last]`. On an empty matrix both slices are
empty and the statement is a no-op. -/
def shiftRows (rows : List (List ℚ)) : List (List ℚ) :=
  rows.tail ++ rows.getLast?.toList

/-- `update_vehicle_counts` (lines 16-18). The shift of line 17 always
executes. The row assignment of line 18 (`self.vehicle_counts[-1] = new_counts`)
raises IndexError on a 0-row matrix; otherwise it succeeds elementwise when
`len(new_counts)` equals the row width `num_lanes`, broadcasts a length-1
vector across the row, and raises ValueError for any other length, leaving the
already-shifted matrix in place. Returns the post-call state and the raised
error, if any. -/
def update_vehicle_counts (s : SmartTrafficManager) (new_counts : List ℚ) :
    SmartTrafficManager × Option PyErr :=
  let shifted := shiftRows s.vehicle_counts
  if s.vehicle_counts = [] then
    ({ s with vehicle_counts := shifted }, some .indexError)
  else if new_counts.length = s.num_lanes then
    ({ s with vehicle_counts := shifted.dropLast ++ [new_counts] }, none)
  else if new_counts.length = 1 then
    ({ s with vehicle_counts :=
        shifted.dropLast ++ [List.replicate s.num_lanes (new_counts.headD 0)] },
      none)
  else
    ({ s with vehicle_counts := shifted }, some .valueError)

/-- `X = np.arange(H)` summed: the first column sum of the design matrix. -/
def sumT (H : ℕ) : ℚ := ∑ t in Finset.range H, (t : ℚ)

/-- Sum of squared time indices `0 .. H-1`. -/
def sumT2 (H : ℕ) : ℚ := ∑ t in Finset.range H, (t : ℚ) ^ 2

/-- Sum of the H observations of one lane. -/
def sumY (H : ℕ) (y : List ℚ) : ℚ := ∑ t in Finset.range H, y.getD t 0

/-- Sum of time-weighted observations of one lane. -/
def sumTY (H : ℕ) (y : List ℚ) : ℚ :=
  ∑ t in Finset.range H, (t : ℚ) * y.getD t 0

/-- Determinant of the 2-by-2 Gram matrix of the design matrix
`X_design = [[0,1],[1,1],...,[H-1,1]]` (line 23). Nonzero exactly when the
design has full column rank. -/
def detX (H : ℕ) : ℚ := (H : ℚ) * sumT2 H - sumT H * sumT H

/-- Slope component of `np.linalg.lstsq(X_design, y)` (line 27): the ordinary
least-squares solution expressed by Cramer's rule on the normal equations. -/
def lstsqSlope (H : ℕ) (y : List ℚ) : ℚ :=
  ((H : ℚ) * sumTY H y - sumT H * sumY H y) / detX H

/-- Intercept component of `np.linalg.lstsq(X_design, y)` (line 27). -/
def lstsqIntercept (H : ℕ) (y : List ℚ) : ℚ :=
  (sumY H y - lstsqSlope H y * sumT H) / (H : ℚ)

/-- The coefficient vector `beta = (slope, intercept)` returned by line 27. -/
def lstsqBeta (H : ℕ) (y : List ℚ) : ℚ × ℚ :=
  (lstsqSlope H y, lstsqIntercept H y)

/-- `self.vehicle_counts[:, lane]` (line 26): one lane's column through the
history matrix, oldest first. -/
def column (rows : List (List ℚ)) (lane : ℕ) : List ℚ :=
  rows.map (fun row => row.getD lane 0)

/-- `predict_congestion` (lines 20-32): for each lane, fit
`beta = lstsq(X_design, y)`, evaluate `beta.dot([H, 1])`, and clamp with
`max(pred, 0)` (line 30). -/
def predict_congestion (s : SmartTrafficManager) : List ℚ :=
  (List.range s.num_lanes).map (fun lane =>
    let beta := lstsqBeta s.history_length (column s.vehicle_counts lane)
    max (beta.1 * (s.history_length : ℚ) + beta.2) 0)

/-- `predict_congestion` as the stateful method call it is in the source: it
reads `self` and assigns only local variables, so the state it leaves behind
is the state it was called on. -/
def predictS (s : SmartTrafficManager) : SmartTrafficManager × List ℚ :=
  (s, predict_congestion s)

/-- `optimize_signal_timings` (lines 34-39): writes `self.signal_timings`
with the equal split when `predicted_counts.sum() == 0` (exact comparison,
line 36) and with the proportional split otherwise. -/
def optimize_signal_timings (s : SmartTrafficManager)
    (predicted_counts : List ℚ) : SmartTrafficManager :=
  if predicted_counts.sum = 0 then
    { s with signal_timings :=
        List.replicate s.num_lanes (s.cycle_length / (s.num_lanes : ℚ)) }
  else
    { s with signal_timings :=
        predicted_counts.map (fun p => p / predicted_counts.sum * s.cycle_length) }

/-- The dictionary returned by `simulate_step` (lines 45-49). -/
structure StepResult where
  latest_counts : List ℚ
  predicted_counts : List ℚ
  signal_timings : List ℚ
deriving DecidableEq, Repr

/-- `simulate_step` (lines 41-49): update, then predict, then optimize. An
error raised by the update propagates; the state then holds whatever the
partially-executed update left behind. -/
def simulate_step (s : SmartTrafficManager) (new_counts : List ℚ) :
    SmartTrafficManager × Except PyErr StepResult :=
  match update_vehicle_counts s new_counts with
  | (s1, some e) => (s1, .error e)
  | (s1, none) =>
    let predicted := predict_congestion s1
    let s2 := optimize_signal_timings s1 predicted
    (s2, .ok
      { latest_counts := new_counts
        predicted_counts := predicted
        signal_timings := s2.signal_timings })

/-- Residual sum of squares of the line `slope * t + intercept` against a
lane's observations: the objective `||X_design . beta - y||^2` that
`np.linalg.lstsq` minimises. -/
def residualSS (H : ℕ) (y : List ℚ) (slope intercept : ℚ) : ℚ :=
  ∑ t in Finset.range H, (slope * (t : ℚ) + intercept - y.getD t 0) ^ 2

/-- Folding a sequence of updates over a manager, keeping only the state:
the buffer evolution of repeated `update_vehicle_counts` calls. -/
def applyUpdates (s : SmartTrafficManager) (vs : List (List ℚ)) :
    SmartTrafficManager :=
  vs.foldl (fun st v => (update_vehicle_counts st v).1) s

/-- Iterating `simulate_step` with a fixed input vector, keeping the state. -/
def stepsFeed (s : SmartTrafficManager) (v : List ℚ) : ℕ → SmartTrafficManager
  | 0 => s
  | n + 1 => (simulate_step (stepsFeed s v n) v).1

lemma sumT_closed (H : ℕ) : sumT H = (H : ℚ) * ((H : ℚ) - 1) / 2 := by
  induction H with
  | zero => simp [sumT]
  | succ n ih =>
    rw [sumT, Finset.sum_range_succ, ← sumT, ih]
    push_cast
    ring

lemma sumT2_closed (H : ℕ) :
    sumT2 H = (H : ℚ) * ((H : ℚ) - 1) * (2 * (H : ℚ) - 1) / 6 := by
  induction H with
  | zero => simp [sumT2]
  | succ n ih =>
    rw [sumT2, Finset.sum_range_succ, ← sumT2, ih]
    push_cast
    ring

lemma detX_closed (H : ℕ) :
    detX H = (H : ℚ) ^ 2 * ((H : ℚ) - 1) * ((H : ℚ) + 1) / 12 := by
  rw [detX, sumT_closed, sumT2_closed]
  ring

lemma detX_pos {H : ℕ} (hH : 2 ≤ H) : 0 < detX H := by
  have h2 : (2 : ℚ) ≤ (H : ℚ) := by exact_mod_cast hH
  rw [detX_closed]
  apply div_pos _ (by norm_num)
  apply mul_pos (mul_pos (by positivity) (by linarith))
  linarith

lemma normal_eq_two {H : ℕ} (hH : 2 ≤ H) (y : List ℚ) :
    lstsqSlope H y * sumT H + lstsqIntercept H y * (H : ℚ) = sumY H y := by
  have hH0 : (H : ℚ) ≠ 0 := by
    have : (2 : ℚ) ≤ (H : ℚ) := by exact_mod_cast hH
    linarith
  rw [lstsqIntercept, div_mul_cancel₀ _ hH0]
  ring

lemma normal_eq_one {H : ℕ} (hH : 2 ≤ H) (y : List ℚ) :
    lstsqSlope H y * sumT2 H + lstsqIntercept H y * sumT H = sumTY H y := by
  have hH0 : (H : ℚ) ≠ 0 := by
    have : (2 : ℚ) ≤ (H : ℚ) := by exact_mod_cast hH
    linarith
  have hD : detX H ≠ 0 := ne_of_gt (detX_pos hH)
  have hslope : lstsqSlope H y * detX H
      = (H : ℚ) * sumTY H y - sumT H * sumY H y :=
    div_mul_cancel₀ _ hD
  rw [detX] at hslope
  rw [lstsqIntercept]
  field_simp
  linear_combination hslope

lemma sumT_succ (n : ℕ) : sumT (n + 1) = sumT n + (n : ℚ) := by
  simp [sumT, Finset.sum_range_succ]

lemma sumT2_succ (n : ℕ) : sumT2 (n + 1) = sumT2 n + (n : ℚ) ^ 2 := by
  simp [sumT2, Finset.sum_range_succ]

lemma sumY_succ (n : ℕ) (y : List ℚ) : sumY (n + 1) y = sumY n y + y.getD n 0 := by
  simp [sumY, Finset.sum_range_succ]

lemma sumTY_succ (n : ℕ) (y : List ℚ) :
    sumTY (n + 1) y = sumTY n y + (n : ℚ) * y.getD n 0 := by
  simp [sumTY, Finset.sum_range_succ]

lemma sum_decomp (H : ℕ) (y : List ℚ) (p q r u w : ℚ) :
    ∑ t in Finset.range H,
        (p * (t : ℚ) ^ 2 + q * (t : ℚ) + r * y.getD t 0
          + u * ((t : ℚ) * y.getD t 0) + w)
      = p * sumT2 H + q * sumT H + r * sumY H y + u * sumTY H y + w * H := by
  induction H with
  | zero => simp [sumT, sumT2, sumY, sumTY]
  | succ n ih =>
    rw [Finset.sum_range_succ, ih, sumT_succ, sumT2_succ, sumY_succ, sumTY_succ]
    push_cast
    ring

lemma residual_expand (H : ℕ) (y : List ℚ) (a b a2 b2 : ℚ)
    (h1 : a * sumT2 H + b * sumT H = sumTY H y)
    (h2 : a * sumT H + b * (H : ℚ) = sumY H y) :
    residualSS H y a2 b2
      = residualSS H y a b
        + ∑ t in Finset.range H, ((a2 - a) * (t : ℚ) + (b2 - b)) ^ 2 := by
  have expand : residualSS H y a2 b2
      = residualSS H y a b
        + (∑ t in Finset.range H, ((a2 - a) * (t : ℚ) + (b2 - b)) ^ 2)
        + ((2 * (a2 - a) * a) * sumT2 H
            + (2 * ((a2 - a) * b + (b2 - b) * a)) * sumT H
            + (-2 * (b2 - b)) * sumY H y
            + (-2 * (a2 - a)) * sumTY H y
            + (2 * (b2 - b) * b) * H) := by
    rw [← sum_decomp H y (2 * (a2 - a) * a) (2 * ((a2 - a) * b + (b2 - b) * a))
      (-2 * (b2 - b)) (-2 * (a2 - a)) (2 * (b2 - b) * b)]
    unfold residualSS
    rw [← Finset.sum_add_distrib, ← Finset.sum_add_distrib]
    exact Finset.sum_congr rfl (by intro t _; ring)
  rw [expand]
  linear_combination 2 * (a2 - a) * h1 + 2 * (b2 - b) * h2

lemma lstsq_minimizes {H : ℕ} (hH : 2 ≤ H) (y : List ℚ) (a b : ℚ) :
    residualSS H y (lstsqSlope H y) (lstsqIntercept H y) ≤ residualSS H y a b := by
  rw [residual_expand H y (lstsqSlope H y) (lstsqIntercept H y) a b
    (normal_eq_one hH y) (normal_eq_two hH y)]
  exact le_add_of_nonneg_right (Finset.sum_nonneg fun t _ => sq_nonneg _)

lemma shiftRows_dropLast (rows : List (List ℚ)) :
    (shiftRows rows).dropLast = rows.tail := by
  cases h : rows.getLast? with
  | none =>
    have : rows = [] := List.getLast?_eq_none_iff.mp h
    simp [shiftRows, this]
  | some a => simp [shiftRows, h]

lemma update_ok (s : SmartTrafficManager) (v : List ℚ)
    (hne : s.vehicle_counts ≠ []) (hv : v.length = s.num_lanes) :
    update_vehicle_counts s v
      = ({ s with vehicle_counts := s.vehicle_counts.tail ++ [v] }, none) := by
  simp [update_vehicle_counts, hne, hv, shiftRows_dropLast]

lemma update_broadcast (s : SmartTrafficManager) (v : List ℚ)
    (hne : s.vehicle_counts ≠ []) (hv : v.length ≠ s.num_lanes)
    (h1 : v.length = 1) :
    update_vehicle_counts s v
      = ({ s with vehicle_counts :=
            s.vehicle_counts.tail ++ [List.replicate s.num_lanes (v.headD 0)] },
          none) := by
  have hv1 : (1 : ℕ) ≠ s.num_lanes := h1 ▸ hv
  simp [update_vehicle_counts, hne, h1, hv1, shiftRows_dropLast]

lemma update_err (s : SmartTrafficManager) (v : List ℚ)
    (hne : s.vehicle_counts ≠ []) (hv : v.length ≠ s.num_lanes)
    (h1 : v.length ≠ 1) :
    update_vehicle_counts s v
      = ({ s with vehicle_counts := shiftRows s.vehicle_counts },
          some PyErr.valueError) := by
  simp [update_vehicle_counts, hne, hv, h1]

lemma applyUpdates_spec (vs : List (List ℚ)) :
    ∀ s : SmartTrafficManager, s.vehicle_counts ≠ [] →
      (∀ u ∈ vs, u.length = s.num_lanes) →
      (applyUpdates s vs).vehicle_counts
          = (s.vehicle_counts ++ vs).drop vs.length ∧
        (applyUpdates s vs).num_lanes = s.num_lanes ∧
        (applyUpdates s vs).history_length = s.history_length ∧
        (applyUpdates s vs).vehicle_counts.length = s.vehicle_counts.length := by
  induction vs with
  | nil => intro s hne hvs; simp [applyUpdates]
  | cons v vs ih =>
    intro s hne hvs
    have hv : v.length = s.num_lanes := hvs v (by simp)
    have happ : applyUpdates s (v :: vs)
        = applyUpdates { s with vehicle_counts := s.vehicle_counts.tail ++ [v] } vs := by
      simp [applyUpdates, update_ok s v hne hv]
    obtain ⟨hbuf, hL, hH, hlen⟩ :=
      ih { s with vehicle_counts := s.vehicle_counts.tail ++ [v] }
        (by simp) (by intro u hu; exact hvs u (by simp [hu]))
    rcases hx : s.vehicle_counts with _ | ⟨a, l⟩
    · exact absurd hx hne
    refine ⟨?_, ?_, ?_, ?_⟩
    · rw [happ, hbuf]
      simp [hx, List.drop_succ_cons, List.append_assoc]
    · rw [happ]; exact hL
    · rw [happ]; exact hH
    · rw [happ, hlen]; simp [hx]

lemma sum_map_ratio (l : List ℚ) (T c : ℚ) :
    (l.map (fun x => x / T * c)).sum = l.sum / T * c := by
  induction l with
  | nil => simp
  | cons a l ih => simp [ih]; ring

lemma predict_length (s : SmartTrafficManager) :
    (predict_congestion s).length = s.num_lanes := by
  simp [predict_congestion]

lemma predict_getD (s : SmartTrafficManager) (lane : ℕ)
    (h : lane < s.num_lanes) :
    (predict_congestion s).getD lane 0
      = max (lstsqSlope s.history_length (column s.vehicle_counts lane)
              * (s.history_length : ℚ)
            + lstsqIntercept s.history_length (column s.vehicle_counts lane)) 0 := by
  have hlen : lane < (predict_congestion s).length := by
    rw [predict_length]; exact h
  rw [List.getD_eq_getElem _ 0 hlen]
  simp [predict_congestion, lstsqBeta]

lemma predict_mem_nonneg (s : SmartTrafficManager) :
    ∀ x ∈ predict_congestion s, 0 ≤ x := by
  intro x hx
  simp only [predict_congestion, List.mem_map] at hx
  obtain ⟨lane, _, rfl⟩ := hx
  exact le_max_right _ _

/-- C1: For every buffer state whose matrix shape matches the configuration
and whose window has at least two rows (so that the design matrix has full
column rank and the least-squares problem a unique solution), the prediction
vector has one component per lane, and each component is the ordinary
least-squares fit of that lane's H observations against time indices
0..H-1 — the embedded coefficients minimise the residual sum of squares among
all lines — evaluated at t = H and clamped to a minimum of 0. -/
theorem predict_is_ols_fit (s : SmartTrafficManager)
    (hH : 2 ≤ s.history_length)
    (hbuf : s.vehicle_counts.length = s.history_length) :
    (predict_congestion s).length = s.num_lanes ∧
    ∀ lane, lane < s.num_lanes →
      (∀ a b : ℚ,
        residualSS s.history_length (column s.vehicle_counts lane)
            (lstsqSlope s.history_length (column s.vehicle_counts lane))
            (lstsqIntercept s.history_length (column s.vehicle_counts lane))
          ≤ residualSS s.history_length (column s.vehicle_counts lane) a b) ∧
      (predict_congestion s).getD lane 0
        = max (lstsqSlope s.history_length (column s.vehicle_counts lane)
                * (s.history_length : ℚ)
              + lstsqIntercept s.history_length (column s.vehicle_counts lane))
            0 := by
  refine ⟨predict_length s, fun lane hlane => ⟨?_, predict_getD s lane hlane⟩⟩
  intro a b
  exact lstsq_minimizes hH (column s.vehicle_counts lane) a b

/-- Witness for `predict_is_ols_fit` at a concrete two-row, one-lane state. -/
def stWitOls : SmartTrafficManager :=
  { num_lanes := 1
    history_length := 2
    cycle_length := 60
    vehicle_counts := [[0], [2]]
    signal_timings := [60] }

theorem predict_is_ols_fit_check :
    2 ≤ stWitOls.history_length ∧
    stWitOls.vehicle_counts.length = stWitOls.history_length ∧
    ((predict_congestion stWitOls).length = stWitOls.num_lanes ∧
      ∀ lane, lane < stWitOls.num_lanes →
        (∀ a b : ℚ,
          residualSS stWitOls.history_length (column stWitOls.vehicle_counts lane)
              (lstsqSlope stWitOls.history_length (column stWitOls.vehicle_counts lane))
              (lstsqIntercept stWitOls.history_length (column stWitOls.vehicle_counts lane))
            ≤ residualSS stWitOls.history_length (column stWitOls.vehicle_counts lane) a b) ∧
        (predict_congestion stWitOls).getD lane 0
          = max (lstsqSlope stWitOls.history_length (column stWitOls.vehicle_counts lane)
                  * (stWitOls.history_length : ℚ)
                + lstsqIntercept stWitOls.history_length
                    (column stWitOls.vehicle_counts lane))
              0) :=
  ⟨by decide, by decide, predict_is_ols_fit stWitOls (by decide) (by decide)⟩

/-- C2: for every state with a positive lane count and non-negative cycle
length, running the allocator on the prediction yields signal timings that
sum exactly to `cycle_length`, and every component of both the prediction
vector and the timing vector is non-negative. -/
theorem pipeline_nonneg_conserves (s : SmartTrafficManager)
    (hL : 0 < s.num_lanes) (hc : 0 ≤ s.cycle_length) :
    (∀ x ∈ predict_congestion s, 0 ≤ x) ∧
    (optimize_signal_timings s (predict_congestion s)).signal_timings.sum
      = s.cycle_length ∧
    (∀ x ∈ (optimize_signal_timings s (predict_congestion s)).signal_timings,
      0 ≤ x) := by
  refine ⟨predict_mem_nonneg s, ?_, ?_⟩
  · unfold optimize_signal_timings
    split_ifs with h
    · simp only [List.sum_replicate, nsmul_eq_mul]
      have hL0 : ((s.num_lanes : ℚ)) ≠ 0 := by
        exact_mod_cast Nat.pos_iff_ne_zero.mp hL
      field_simp
    · simp only
      rw [sum_map_ratio, div_self h, one_mul]
  · unfold optimize_signal_timings
    split_ifs with h
    · intro x hx
      have hx' := List.eq_of_mem_replicate hx
      subst hx'
      positivity
    · intro x hx
      simp only [List.mem_map] at hx
      obtain ⟨p, hp, rfl⟩ := hx
      have hp0 : 0 ≤ p := predict_mem_nonneg s p hp
      have hsum : 0 ≤ (predict_congestion s).sum :=
        List.sum_nonneg (predict_mem_nonneg s)
      have htot : 0 < (predict_congestion s).sum := lt_of_le_of_ne hsum (Ne.symm h)
      positivity

/-- Witness for `pipeline_nonneg_conserves` at a concrete state. -/
def stWitPipe : SmartTrafficManager :=
  { num_lanes := 2
    history_length := 2
    cycle_length := 100
    vehicle_counts := [[1, 0], [3, 0]]
    signal_timings := [50, 50] }

theorem pipeline_nonneg_conserves_check :
    0 < stWitPipe.num_lanes ∧ 0 ≤ stWitPipe.cycle_length ∧
    ((∀ x ∈ predict_congestion stWitPipe, 0 ≤ x) ∧
      (optimize_signal_timings stWitPipe (predict_congestion stWitPipe)).signal_timings.sum
        = stWitPipe.cycle_length ∧
      (∀ x ∈ (optimize_signal_timings stWitPipe
          (predict_congestion stWitPipe)).signal_timings, 0 ≤ x)) :=
  ⟨by decide, by norm_num [stWitPipe],
    pipeline_nonneg_conserves stWitPipe (by decide) (by norm_num [stWitPipe])⟩

/-- C3: for every non-negative prediction vector, a zero total (the source
compares `total == 0` exactly, so the tolerance in force is 0) yields the
equal split `cycle_length / L` for every lane, and a nonzero total yields the
proportional allocation `(predicted[lane] / total) * cycle_length`, under
which a lane with zero predicted congestion receives exactly zero seconds. -/
theorem allocate_zero_and_proportional (s : SmartTrafficManager) (p : List ℚ)
    (hp : ∀ x ∈ p, 0 ≤ x) :
    (p.sum = 0 →
      (optimize_signal_timings s p).signal_timings
        = List.replicate s.num_lanes (s.cycle_length / (s.num_lanes : ℚ))) ∧
    (p.sum ≠ 0 → ∀ i, i < p.length →
      (optimize_signal_timings s p).signal_timings.getD i 0
          = p.getD i 0 / p.sum * s.cycle_length ∧
      (p.getD i 0 = 0 →
        (optimize_signal_timings s p).signal_timings.getD i 0 = 0)) := by
  constructor
  · intro h
    simp [optimize_signal_timings, h]
  · intro h i hi
    have hmap : (optimize_signal_timings s p).signal_timings
        = p.map (fun x => x / p.sum * s.cycle_length) := by
      simp [optimize_signal_timings, h]
    have hgd : (optimize_signal_timings s p).signal_timings.getD i 0
        = p.getD i 0 / p.sum * s.cycle_length := by
      rw [hmap]
      have hi2 : i < (p.map (fun x => x / p.sum * s.cycle_length)).length := by
        simpa using hi
      rw [List.getD_eq_getElem _ 0 hi2, List.getElem_map,
        List.getD_eq_getElem p 0 hi]
    refine ⟨hgd, fun hz => ?_⟩
    rw [hgd, hz, zero_div, zero_mul]

/-- Witness for `allocate_zero_and_proportional`: the spec's proportionality
example, `predicted = [30, 10, 0, 0]`, `cycle_length = 100`. -/
def stWitAlloc : SmartTrafficManager :=
  { num_lanes := 4
    history_length := 3
    cycle_length := 100
    vehicle_counts := [[0, 0, 0, 0], [0, 0, 0, 0], [0, 0, 0, 0]]
    signal_timings := [25, 25, 25, 25] }

theorem allocate_zero_and_proportional_check :
    (∀ x ∈ [(30 : ℚ), 10, 0, 0], 0 ≤ x) ∧
    (([(30 : ℚ), 10, 0, 0].sum = 0 →
        (optimize_signal_timings stWitAlloc [30, 10, 0, 0]).signal_timings
          = List.replicate stWitAlloc.num_lanes
              (stWitAlloc.cycle_length / (stWitAlloc.num_lanes : ℚ))) ∧
      ([(30 : ℚ), 10, 0, 0].sum ≠ 0 →
        ∀ i, i < ([(30 : ℚ), 10, 0, 0] : List ℚ).length →
          (optimize_signal_timings stWitAlloc [30, 10, 0, 0]).signal_timings.getD i 0
              = [(30 : ℚ), 10, 0, 0].getD i 0 / [(30 : ℚ), 10, 0, 0].sum
                * stWitAlloc.cycle_length ∧
          ([(30 : ℚ), 10, 0, 0].getD i 0 = 0 →
            (optimize_signal_timings stWitAlloc [30, 10, 0, 0]).signal_timings.getD i 0
              = 0))) :=
  ⟨by intro x hx; fin_cases hx <;> norm_num,
    allocate_zero_and_proportional stWitAlloc [30, 10, 0, 0]
      (by intro x hx; fin_cases hx <;> norm_num)⟩

/-- C4: with a well-formed window (`H` rows, `H > 0`) every update with a
length-`L` vector succeeds, discards the oldest row (index 0), appends the new
vector as the newest row (index `H - 1`) preserving chronological order, and
keeps the row count at exactly `H`; folding `H + 1` such updates leaves the
buffer holding exactly the 2nd..(H+1)-th submitted vectors, so the oldest
retained observation is the 2nd one ever submitted. -/
theorem buffer_fifo_window (s : SmartTrafficManager) (v : List ℚ)
    (vs : List (List ℚ))
    (hlen : s.vehicle_counts.length = s.history_length)
    (hH : 0 < s.history_length)
    (hv : v.length = s.num_lanes)
    (hvs : ∀ u ∈ vs, u.length = s.num_lanes)
    (hcount : vs.length = s.history_length + 1) :
    update_vehicle_counts s v
        = ({ s with vehicle_counts := s.vehicle_counts.tail ++ [v] }, none) ∧
    (s.vehicle_counts.tail ++ [v]).length = s.history_length ∧
    (applyUpdates s vs).vehicle_counts = vs.tail ∧
    (applyUpdates s vs).vehicle_counts.headD [] = vs.getD 1 [] := by
  have hne : s.vehicle_counts ≠ [] := by
    intro h
    rw [h] at hlen
    simp at hlen
    omega
  obtain ⟨hbuf, _, _, _⟩ := applyUpdates_spec vs s hne hvs
  have hdrop : (s.vehicle_counts ++ vs).drop vs.length = vs.tail := by
    have : vs.length = s.vehicle_counts.length + 1 := by rw [hlen, hcount]
    rw [this, List.drop_append 1, List.drop_one]
  refine ⟨update_ok s v hne hv, ?_, ?_, ?_⟩
  · rcases hx : s.vehicle_counts with _ | ⟨a, l⟩
    · exact absurd hx hne
    · rw [hx] at hlen
      simpa using hlen
  · rw [hbuf, hdrop]
  · rw [hbuf, hdrop]
    rcases vs with _ | ⟨u1, vs1⟩
    · simp at hcount
    rcases vs1 with _ | ⟨u2, vs2⟩
    · simp at hcount
      omega
    simp

/-- Witness state for `buffer_fifo_window`: two rows, one lane. -/
def stWitFifo : SmartTrafficManager :=
  { num_lanes := 1
    history_length := 2
    cycle_length := 10
    vehicle_counts := [[1], [2]]
    signal_timings := [10] }

theorem buffer_fifo_window_check :
    stWitFifo.vehicle_counts.length = stWitFifo.history_length ∧
    0 < stWitFifo.history_length ∧
    ([(3 : ℚ)] : List ℚ).length = stWitFifo.num_lanes ∧
    (∀ u ∈ ([[(4 : ℚ)], [5], [6]] : List (List ℚ)), u.length = stWitFifo.num_lanes) ∧
    ([[(4 : ℚ)], [5], [6]] : List (List ℚ)).length = stWitFifo.history_length + 1 ∧
    (update_vehicle_counts stWitFifo [3]
        = ({ stWitFifo with
              vehicle_counts := stWitFifo.vehicle_counts.tail ++ [[3]] }, none) ∧
      (stWitFifo.vehicle_counts.tail ++ [[(3 : ℚ)]]).length = stWitFifo.history_length ∧
      (applyUpdates stWitFifo [[(4 : ℚ)], [5], [6]]).vehicle_counts
        = ([[(4 : ℚ)], [5], [6]] : List (List ℚ)).tail ∧
      (applyUpdates stWitFifo [[(4 : ℚ)], [5], [6]]).vehicle_counts.headD []
        = ([[(4 : ℚ)], [5], [6]] : List (List ℚ)).getD 1 []) :=
  ⟨by decide, by decide, by decide, by intro u hu; fin_cases hu <;> decide, by decide,
    buffer_fifo_window stWitFifo [3] [[4], [5], [6]] (by decide) (by decide)
      (by decide) (by intro u hu; fin_cases hu <;> decide) (by decide)⟩

/-- A concrete well-formed two-lane state used to refute the claimed shape
check. -/
def stWitShape : SmartTrafficManager :=
  { num_lanes := 2
    history_length := 2
    cycle_length := 100
    vehicle_counts := [[1, 2], [3, 4]]
    signal_timings := [50, 50] }

/-- C5 counterexample: the input `[9]` has the wrong length (1 ≠ 2 lanes),
yet `update_vehicle_counts` raises no error at all — numpy broadcasts the
single value across the row — and the prior buffer contents are not
preserved: the buffer becomes `[[3,4],[9,9]]`. -/
theorem update_shape_cex :
    ([(9 : ℚ)] : List ℚ).length ≠ stWitShape.num_lanes ∧
    update_vehicle_counts stWitShape [9]
      = ({ stWitShape with vehicle_counts := [[3, 4], [9, 9]] }, none) ∧
    ({ stWitShape with vehicle_counts := [[(3 : ℚ), 4], [9, 9]] }
        : SmartTrafficManager) ≠ stWitShape := by
  refine ⟨by decide, by decide, by decide⟩

/-- C5 as amended: no shape check exists. A wrong-length input of length
other than 1 raises a numpy broadcast ValueError from `update` (and
`simulate_step` propagates it), but only after line 17 has already executed,
so the state left behind holds the shifted buffer (oldest row discarded, last
row duplicated), not the prior contents; a wrong-length input of length 1 is
broadcast across the newest row without any error. -/
theorem update_wrong_length_behavior (s : SmartTrafficManager) (v : List ℚ)
    (hne : s.vehicle_counts ≠ []) (hv : v.length ≠ s.num_lanes) :
    (v.length ≠ 1 →
      update_vehicle_counts s v
          = ({ s with vehicle_counts := shiftRows s.vehicle_counts },
              some PyErr.valueError) ∧
      simulate_step s v
          = ({ s with vehicle_counts := shiftRows s.vehicle_counts },
              Except.error PyErr.valueError)) ∧
    (v.length = 1 →
      update_vehicle_counts s v
          = ({ s with vehicle_counts :=
                s.vehicle_counts.tail
                  ++ [List.replicate s.num_lanes (v.headD 0)] }, none)) := by
  constructor
  · intro h1
    have hu := update_err s v hne hv h1
    exact ⟨hu, by simp [simulate_step, hu]⟩
  · intro h1
    exact update_broadcast s v hne hv h1

theorem update_wrong_length_behavior_check :
    stWitShape.vehicle_counts ≠ [] ∧
    ([(7 : ℚ), 8, 9] : List ℚ).length ≠ stWitShape.num_lanes ∧
    ((([(7 : ℚ), 8, 9] : List ℚ).length ≠ 1 →
      update_vehicle_counts stWitShape [7, 8, 9]
          = ({ stWitShape with vehicle_counts := shiftRows stWitShape.vehicle_counts },
              some PyErr.valueError) ∧
      simulate_step stWitShape [7, 8, 9]
          = ({ stWitShape with vehicle_counts := shiftRows stWitShape.vehicle_counts },
              Except.error PyErr.valueError)) ∧
    (([(7 : ℚ), 8, 9] : List ℚ).length = 1 →
      update_vehicle_counts stWitShape [7, 8, 9]
          = ({ stWitShape with vehicle_counts :=
                stWitShape.vehicle_counts.tail
                  ++ [List.replicate stWitShape.num_lanes
                        (([(7 : ℚ), 8, 9] : List ℚ).headD 0)] }, none))) :=
  ⟨by decide, by decide,
    update_wrong_length_behavior stWitShape [7, 8, 9] (by decide) (by decide)⟩

lemma getD_replicate_of_lt {n m : ℕ} {c : ℚ} (h : m < n) :
    (List.replicate n c).getD m 0 = c := by
  rw [List.getD_eq_getElem _ 0 (by simpa using h)]
  exact List.getElem_replicate _ _

lemma sumY_replicate (H : ℕ) (c : ℚ) :
    sumY H (List.replicate H c) = (H : ℚ) * c := by
  unfold sumY
  rw [Finset.sum_congr rfl
    (fun t ht => getD_replicate_of_lt (Finset.mem_range.mp ht))]
  rw [Finset.sum_const, Finset.card_range, nsmul_eq_mul]

lemma sumTY_replicate (H : ℕ) (c : ℚ) :
    sumTY H (List.replicate H c) = sumT H * c := by
  unfold sumTY
  rw [Finset.sum_congr rfl (fun t ht => by
    rw [getD_replicate_of_lt (Finset.mem_range.mp ht)])]
  rw [← Finset.sum_mul]
  rfl

lemma lstsqSlope_replicate (H : ℕ) (c : ℚ) :
    lstsqSlope H (List.replicate H c) = 0 := by
  unfold lstsqSlope
  rw [sumTY_replicate, sumY_replicate]
  rw [show (H : ℚ) * (sumT H * c) - sumT H * ((H : ℚ) * c) = 0 by ring, zero_div]

lemma lstsqIntercept_replicate (H : ℕ) (c : ℚ) (hH : 1 ≤ H) :
    lstsqIntercept H (List.replicate H c) = c := by
  have hH0 : (H : ℚ) ≠ 0 := Nat.cast_ne_zero.mpr (by omega)
  unfold lstsqIntercept
  rw [lstsqSlope_replicate, zero_mul, sub_zero, sumY_replicate,
    mul_comm, mul_div_assoc, div_self hH0, mul_one]

lemma predict_constant_lane (s : SmartTrafficManager) (lane : ℕ) (c : ℚ)
    (hH : 1 ≤ s.history_length) (hc : 0 ≤ c) (hlane : lane < s.num_lanes)
    (hcol : column s.vehicle_counts lane
      = List.replicate s.history_length c) :
    lstsqBeta s.history_length (column s.vehicle_counts lane) = (0, c) ∧
    (predict_congestion s).getD lane 0 = c := by
  constructor
  · rw [hcol]
    unfold lstsqBeta
    rw [lstsqSlope_replicate, lstsqIntercept_replicate _ _ hH]
  · rw [predict_getD s lane hlane, hcol, lstsqSlope_replicate,
      lstsqIntercept_replicate _ _ hH, zero_mul, zero_add]
    exact max_eq_left hc

lemma optimize_frame (s : SmartTrafficManager) (p : List ℚ) :
    (optimize_signal_timings s p).num_lanes = s.num_lanes ∧
    (optimize_signal_timings s p).history_length = s.history_length ∧
    (optimize_signal_timings s p).cycle_length = s.cycle_length ∧
    (optimize_signal_timings s p).vehicle_counts = s.vehicle_counts := by
  unfold optimize_signal_timings
  split_ifs <;> exact ⟨rfl, rfl, rfl, rfl⟩

lemma update_frame (s : SmartTrafficManager) (v : List ℚ) :
    (update_vehicle_counts s v).1.num_lanes = s.num_lanes ∧
    (update_vehicle_counts s v).1.history_length = s.history_length ∧
    (update_vehicle_counts s v).1.cycle_length = s.cycle_length ∧
    (update_vehicle_counts s v).1.signal_timings = s.signal_timings := by
  unfold update_vehicle_counts
  split_ifs <;> exact ⟨rfl, rfl, rfl, rfl⟩

lemma simulate_step_ok (s : SmartTrafficManager) (v : List ℚ)
    (hne : s.vehicle_counts ≠ []) (hv : v.length = s.num_lanes) :
    simulate_step s v
      = (optimize_signal_timings
            { s with vehicle_counts := s.vehicle_counts.tail ++ [v] }
            (predict_congestion
              { s with vehicle_counts := s.vehicle_counts.tail ++ [v] }),
          Except.ok
            { latest_counts := v
              predicted_counts := predict_congestion
                { s with vehicle_counts := s.vehicle_counts.tail ++ [v] }
              signal_timings := (optimize_signal_timings
                  { s with vehicle_counts := s.vehicle_counts.tail ++ [v] }
                  (predict_congestion
                    { s with vehicle_counts := s.vehicle_counts.tail ++ [v] })).signal_timings }) := by
  unfold simulate_step
  rw [update_ok s v hne hv]

lemma simulate_step_state (s : SmartTrafficManager) (v : List ℚ)
    (hne : s.vehicle_counts ≠ []) (hv : v.length = s.num_lanes) :
    (simulate_step s v).1.num_lanes = s.num_lanes ∧
    (simulate_step s v).1.history_length = s.history_length ∧
    (simulate_step s v).1.cycle_length = s.cycle_length ∧
    (simulate_step s v).1.vehicle_counts = s.vehicle_counts.tail ++ [v] := by
  rw [simulate_step_ok s v hne hv]
  exact optimize_frame _ _

lemma stepsFeed_fields (s : SmartTrafficManager) (v : List ℚ) (n : ℕ)
    (hne : s.vehicle_counts ≠ []) (hv : v.length = s.num_lanes) :
    (stepsFeed s v n).num_lanes = s.num_lanes ∧
    (stepsFeed s v n).history_length = s.history_length ∧
    (stepsFeed s v n).cycle_length = s.cycle_length ∧
    (stepsFeed s v n).vehicle_counts
      = (s.vehicle_counts ++ List.replicate n v).drop n := by
  induction n with
  | zero => simp [stepsFeed]
  | succ k ih =>
    obtain ⟨hL, hH, hc, hbuf⟩ := ih
    have hpos : 0 < s.vehicle_counts.length := List.length_pos.mpr hne
    have hne2 : (stepsFeed s v k).vehicle_counts ≠ [] := by
      rw [hbuf]
      have hlen : ((s.vehicle_counts ++ List.replicate k v).drop k).length
          = s.vehicle_counts.length := by simp
      intro hcontra
      rw [hcontra] at hlen
      simp at hlen
      omega
    have hv2 : v.length = (stepsFeed s v k).num_lanes := by rw [hL]; exact hv
    obtain ⟨g1, g2, g3, g4⟩ := simulate_step_state (stepsFeed s v k) v hne2 hv2
    refine ⟨by rw [show stepsFeed s v (k + 1) = (simulate_step (stepsFeed s v k) v).1 from rfl, g1, hL],
      by rw [show stepsFeed s v (k + 1) = (simulate_step (stepsFeed s v k) v).1 from rfl, g2, hH],
      by rw [show stepsFeed s v (k + 1) = (simulate_step (stepsFeed s v k) v).1 from rfl, g3, hc], ?_⟩
    rw [show stepsFeed s v (k + 1) = (simulate_step (stepsFeed s v k) v).1 from rfl, g4, hbuf]
    have hle : k + 1 ≤ (s.vehicle_counts ++ List.replicate k v).length := by
      rw [List.length_append, List.length_replicate]; omega
    rw [List.tail_drop, List.replicate_succ', ← List.append_assoc]
    conv_rhs => rw [List.drop_append_of_le_length hle]

lemma list_eq_of_len3 (l : List ℚ) (h : l.length = 3) :
    l = [l.getD 0 0, l.getD 1 0, l.getD 2 0] := by
  rcases l with _ | ⟨a, l⟩
  · simp at h
  rcases l with _ | ⟨b, l⟩
  · simp at h
  rcases l with _ | ⟨c, l⟩
  · simp at h
  rcases l with _ | ⟨d, l⟩
  · simp
  · simp at h

/-- The manager state produced by constructing with `num_lanes = 3`,
`history_length = 5`, `cycle_length = 120`: an all-zero 5-by-3 history and
the equal split 40 seconds per lane. -/
def stTen : SmartTrafficManager :=
  { num_lanes := 3
    history_length := 5
    cycle_length := 120
    vehicle_counts := List.replicate 5 (List.replicate 3 0)
    signal_timings := List.replicate 3 40 }

/-- C6: a lane whose H observations are all identical (zero variance) does
not make the solver fail: the fit degenerates to the zero-slope line with the
constant as intercept, and the clamped forecast is that constant. Concretely,
the `num_lanes = 3, history_length = 5, cycle_length = 120` manager fed
`[10, 10, 10]` for 5 consecutive steps returns, on the 5th step, the
prediction `[10, 10, 10]` and signal timings `[40, 40, 40]` exactly. -/
theorem constant_history_prediction :
    (∀ (s : SmartTrafficManager) (lane : ℕ) (c : ℚ),
        1 ≤ s.history_length → 0 ≤ c → lane < s.num_lanes →
        column s.vehicle_counts lane = List.replicate s.history_length c →
        lstsqBeta s.history_length (column s.vehicle_counts lane) = (0, c) ∧
        (predict_congestion s).getD lane 0 = c) ∧
    (simulate_step (stepsFeed stTen [10, 10, 10] 4) [10, 10, 10]).2
      = Except.ok
          { latest_counts := [10, 10, 10]
            predicted_counts := [10, 10, 10]
            signal_timings := [40, 40, 40] } := by
  refine ⟨fun s lane c hH hc hlane hcol =>
    predict_constant_lane s lane c hH hc hlane hcol, ?_⟩
  obtain ⟨hL4, hH4, hc4, hbuf4⟩ := stepsFeed_fields stTen [10, 10, 10] 4
    (by decide) (by decide)
  have hbufval : (stepsFeed stTen [10, 10, 10] 4).vehicle_counts
      = [[0, 0, 0], [10, 10, 10], [10, 10, 10], [10, 10, 10], [10, 10, 10]] := by
    rw [hbuf4]; decide
  have hne4 : (stepsFeed stTen [10, 10, 10] 4).vehicle_counts ≠ [] := by
    rw [hbufval]; decide
  have hv4 : ([(10 : ℚ), 10, 10] : List ℚ).length
      = (stepsFeed stTen [10, 10, 10] 4).num_lanes := by
    rw [hL4]; decide
  rw [simulate_step_ok _ _ hne4 hv4]
  have hvc5 : ({ stepsFeed stTen [10, 10, 10] 4 with
      vehicle_counts := (stepsFeed stTen [10, 10, 10] 4).vehicle_counts.tail
        ++ [[(10 : ℚ), 10, 10]] } : SmartTrafficManager).vehicle_counts
      = List.replicate 5 [(10 : ℚ), 10, 10] := by
    simp only [hbufval]
    decide
  have hH5 : ({ stepsFeed stTen [10, 10, 10] 4 with
      vehicle_counts := (stepsFeed stTen [10, 10, 10] 4).vehicle_counts.tail
        ++ [[(10 : ℚ), 10, 10]] } : SmartTrafficManager).history_length = 5 := hH4
  have hL5 : ({ stepsFeed stTen [10, 10, 10] 4 with
      vehicle_counts := (stepsFeed stTen [10, 10, 10] 4).vehicle_counts.tail
        ++ [[(10 : ℚ), 10, 10]] } : SmartTrafficManager).num_lanes = 3 := hL4
  have hc5 : ({ stepsFeed stTen [10, 10, 10] 4 with
      vehicle_counts := (stepsFeed stTen [10, 10, 10] 4).vehicle_counts.tail
        ++ [[(10 : ℚ), 10, 10]] } : SmartTrafficManager).cycle_length = 120 := hc4
  have hcol5 : ∀ lane, lane < 3 →
      column ({ stepsFeed stTen [10, 10, 10] 4 with
        vehicle_counts := (stepsFeed stTen [10, 10, 10] 4).vehicle_counts.tail
          ++ [[(10 : ℚ), 10, 10]] } : SmartTrafficManager).vehicle_counts lane
      = List.replicate 5 (10 : ℚ) := by
    intro lane hlane
    rw [hvc5]
    interval_cases lane <;> decide
  have hgd : ∀ lane, lane < 3 →
      (predict_congestion { stepsFeed stTen [10, 10, 10] 4 with
        vehicle_counts := (stepsFeed stTen [10, 10, 10] 4).vehicle_counts.tail
          ++ [[(10 : ℚ), 10, 10]] }).getD lane 0 = 10 := by
    intro lane hlane
    exact (predict_constant_lane _ lane 10 (by rw [hH5]; omega) (by norm_num)
      (by rw [hL5]; omega) (by rw [hcol5 lane hlane, hH5])).2
  have hpred : predict_congestion { stepsFeed stTen [10, 10, 10] 4 with
      vehicle_counts := (stepsFeed stTen [10, 10, 10] 4).vehicle_counts.tail
        ++ [[(10 : ℚ), 10, 10]] } = [10, 10, 10] := by
    have hplen := predict_length { stepsFeed stTen [10, 10, 10] 4 with
      vehicle_counts := (stepsFeed stTen [10, 10, 10] 4).vehicle_counts.tail
        ++ [[(10 : ℚ), 10, 10]] }
    rw [hL5] at hplen
    rw [list_eq_of_len3 _ hplen, hgd 0 (by omega), hgd 1 (by omega),
      hgd 2 (by omega)]
  rw [hpred]
  have hopt : (optimize_signal_timings { stepsFeed stTen [10, 10, 10] 4 with
      vehicle_counts := (stepsFeed stTen [10, 10, 10] 4).vehicle_counts.tail
        ++ [[(10 : ℚ), 10, 10]] } [10, 10, 10]).signal_timings
      = [40, 40, 40] := by
    unfold optimize_signal_timings
    rw [if_neg (by norm_num)]
    norm_num
    rw [hc4]
    norm_num [stTen]
  rw [hopt]

/-- A state whose window holds five identical observation rows. -/
def stAllTen : SmartTrafficManager :=
  { num_lanes := 3
    history_length := 5
    cycle_length := 120
    vehicle_counts := List.replicate 5 [10, 10, 10]
    signal_timings := List.replicate 3 40 }

theorem constant_history_prediction_check :
    1 ≤ stAllTen.history_length ∧ (0 : ℚ) ≤ 10 ∧ 0 < stAllTen.num_lanes ∧
    column stAllTen.vehicle_counts 0 = List.replicate stAllTen.history_length 10 ∧
    (lstsqBeta stAllTen.history_length (column stAllTen.vehicle_counts 0)
        = (0, 10) ∧
      (predict_congestion stAllTen).getD 0 0 = 10) :=
  ⟨by decide, by norm_num, by decide, by decide,
    constant_history_prediction.1 stAllTen 0 10 (by decide) (by norm_num)
      (by decide) (by decide)⟩

/-- C7: `predict` is deterministic and pure. A second call on the state left
behind by a first call returns the identical vector, and its output depends
only on the buffer contents and the configuration it reads — two states that
agree on `vehicle_counts`, `history_length` and `num_lanes` (whatever their
`signal_timings`) give identical predictions; no randomness enters. -/
theorem predict_deterministic (s s2 : SmartTrafficManager)
    (hb : s.vehicle_counts = s2.vehicle_counts)
    (hh : s.history_length = s2.history_length)
    (hl : s.num_lanes = s2.num_lanes) :
    (predictS s).2 = (predictS ((predictS s).1)).2 ∧
    predict_congestion s = predict_congestion s2 := by
  refine ⟨rfl, ?_⟩
  unfold predict_congestion
  rw [hb, hh, hl]

/-- Two states sharing a buffer and configuration but with different signal
timings. -/
def stDetA : SmartTrafficManager :=
  { num_lanes := 2
    history_length := 2
    cycle_length := 100
    vehicle_counts := [[1, 2], [3, 4]]
    signal_timings := [50, 50] }

/-- Same buffer and configuration as `stDetA`, different signal timings. -/
def stDetB : SmartTrafficManager :=
  { num_lanes := 2
    history_length := 2
    cycle_length := 100
    vehicle_counts := [[1, 2], [3, 4]]
    signal_timings := [10, 90] }

theorem predict_deterministic_check :
    stDetA.vehicle_counts = stDetB.vehicle_counts ∧
    stDetA.history_length = stDetB.history_length ∧
    stDetA.num_lanes = stDetB.num_lanes ∧
    ((predictS stDetA).2 = (predictS ((predictS stDetA).1)).2 ∧
      predict_congestion stDetA = predict_congestion stDetB) :=
  ⟨by decide, by decide, by decide,
    predict_deterministic stDetA stDetB (by decide) (by decide) (by decide)⟩

/-- C8 counterexample: constructing with the non-positive cycle length 0
(lanes and history positive) does not fail — it returns a fully formed,
usable manager, on which an update succeeds; the claimed validation of
`cycle_length` does not exist in `__init__`. -/
theorem init_nonpositive_cycle_cex :
    initManager 4 10 0
      = Except.ok
          { num_lanes := 4
            history_length := 10
            cycle_length := 0
            vehicle_counts := List.replicate 10 (List.replicate 4 0)
            signal_timings := List.replicate 4 (0 / (4 : ℚ)) } ∧
    (0 / (4 : ℚ)) = 0 ∧
    (update_vehicle_counts
        { num_lanes := 4
          history_length := 10
          cycle_length := 0
          vehicle_counts := List.replicate 10 (List.replicate 4 0)
          signal_timings := List.replicate 4 (0 / (4 : ℚ)) }
        [1, 2, 3, 4]).2 = none := by
  refine ⟨?_, by norm_num, by decide⟩
  unfold initManager
  rw [if_neg (by decide), if_neg (by decide)]
  norm_num
  refine ⟨by decide, by decide, by decide⟩

/-- C8 as amended: construction fails exactly when `num_lanes ≤ 0` (negative
dimension or division by zero) or `history_length < 0` (negative dimension);
`history_length = 0` and every `cycle_length`, non-positive values included,
are accepted without any error. -/
theorem init_error_characterization (L H : ℤ) (c : ℚ) :
    (∃ e, initManager L H c = Except.error e) ↔ (L ≤ 0 ∨ H < 0) := by
  unfold initManager
  split_ifs with h1 h2 <;> simp <;> omega

/-- All-zero three-row buffer with the equal split in place, used to exhibit
the mutation performed by the allocator. -/
def stFrame : SmartTrafficManager :=
  { num_lanes := 2
    history_length := 3
    cycle_length := 100
    vehicle_counts := [[0, 0], [0, 0], [0, 0]]
    signal_timings := [50, 50] }

/-- C9 counterexample: `optimize_signal_timings` does modify manager state —
called on `stFrame` with prediction `[1, 0]` it overwrites the
`signal_timings` field with `[100, 0]`, so the resulting state differs from
the input state. -/
theorem allocate_mutates_cex :
    (optimize_signal_timings stFrame [1, 0]).signal_timings = [100, 0] ∧
    optimize_signal_timings stFrame [1, 0] ≠ stFrame := by
  have h1 : (optimize_signal_timings stFrame [1, 0]).signal_timings
      = [100, 0] := by
    unfold optimize_signal_timings
    rw [if_neg (by norm_num)]
    norm_num [stFrame]
  refine ⟨h1, fun h => ?_⟩
  rw [h] at h1
  norm_num [stFrame] at h1

/-- C9 as amended: `predict` leaves the state untouched and `update` writes
only `vehicle_counts`, but the allocator is not stateless — it writes its
result into a second mutable field, `signal_timings` (lines 37 and 39),
leaving the configuration and the history buffer unchanged. -/
theorem mutation_frame (s : SmartTrafficManager) (p v : List ℚ) :
    (predictS s).1 = s ∧
    ((optimize_signal_timings s p).num_lanes = s.num_lanes ∧
      (optimize_signal_timings s p).history_length = s.history_length ∧
      (optimize_signal_timings s p).cycle_length = s.cycle_length ∧
      (optimize_signal_timings s p).vehicle_counts = s.vehicle_counts) ∧
    ((update_vehicle_counts s v).1.num_lanes = s.num_lanes ∧
      (update_vehicle_counts s v).1.history_length = s.history_length ∧
      (update_vehicle_counts s v).1.cycle_length = s.cycle_length ∧
      (update_vehicle_counts s v).1.signal_timings = s.signal_timings) :=
  ⟨rfl, optimize_frame s p, update_frame s v⟩

/-- C10: immediately after construction with a valid configuration, before
any step, the signal timings already hold the equal split
`cycle_length / num_lanes` in every lane and the history buffer is the
all-zero H-by-L matrix. -/
theorem init_equal_split (L H : ℤ) (c : ℚ) (hL : 0 < L) (hH : 0 < H)
    (hc : 0 < c) :
    initManager L H c
      = Except.ok
          { num_lanes := L.toNat
            history_length := H.toNat
            cycle_length := c
            vehicle_counts :=
              List.replicate H.toNat (List.replicate L.toNat 0)
            signal_timings := List.replicate L.toNat (c / (L.toNat : ℚ)) } := by
  unfold initManager
  rw [if_neg (by omega), if_neg (by omega)]

theorem init_equal_split_check :
    (0 : ℤ) < 4 ∧ (0 : ℤ) < 10 ∧ (0 : ℚ) < 120 ∧
    initManager 4 10 120
      = Except.ok
          { num_lanes := (4 : ℤ).toNat
            history_length := (10 : ℤ).toNat
            cycle_length := 120
            vehicle_counts :=
              List.replicate (10 : ℤ).toNat (List.replicate (4 : ℤ).toNat 0)
            signal_timings :=
              List.replicate (4 : ℤ).toNat ((120 : ℚ) / (((4 : ℤ).toNat : ℕ) : ℚ)) } :=
  ⟨by decide, by decide, by norm_num,
    init_equal_split 4 10 120 (by decide) (by decide) (by norm_num)⟩
